import Mathlib

/-!
Shallow embedding of the mrpack-distributor release pipeline
(src/src/main.rs plus the config structures of src/src/models/mod.rs).

Rust strings are modelled as lists of characters.  External effects
(subprocesses, HTTP requests, the filesystem, environment variables) are
modelled by an oracle structure `Env` holding the outcome of each external
interaction, in the order the program performs them; `runPipeline` is then a
pure function replaying the control flow of `main`.

Modules of the repository that are not under src (pack.rs, util.rs,
models/meta.rs, models/github.rs, models/modrinth.rs) are modelled from the
spec where needed; each such definition carries a doc comment saying so.
-/

namespace Mrpack

/-- Rust `String` / `&str`, modelled as a list of characters. -/
abbrev Str := List Char

/-! ## `str::replace` (used at src/src/main.rs:143-147 and 163) -/

/-- Fuelled worker for `replaceAll`.  Scans left to right; on a match of
`pat` it emits `rep` and skips past the matched characters, exactly the
semantics of Rust `str::replace` for a non-empty pattern.  The fuel is an
upper bound on the number of scanning steps; `replaceAll` supplies enough. -/
def replaceAllFuel (pat rep : Str) : Nat → Str → Str
  | _, [] => []
  | 0, s => s
  | Nat.succ fuel, c :: cs =>
    if pat ≠ [] ∧ pat.isPrefixOf (c :: cs) then
      rep ++ replaceAllFuel pat rep fuel (List.drop (pat.length - 1) cs)
    else
      c :: replaceAllFuel pat rep fuel cs

/-- Rust `str::replace`: replace every non-overlapping occurrence of `pat`
by `rep`, scanning left to right.  For the empty pattern Rust matches at
every character boundary, interleaving `rep` between all characters. -/
def replaceAll (pat rep s : Str) : Str :=
  if pat = [] then rep ++ s.flatMap (fun c => c :: rep)
  else replaceAllFuel pat rep s.length s

/-- Whether `pat` occurs as a contiguous substring. -/
def containsSub (pat : Str) : Str → Bool
  | [] => pat.isPrefixOf []
  | c :: cs => pat.isPrefixOf (c :: cs) || containsSub pat cs

/-! ## Data model

`GithubConfig`, `ModrinthConfig`, `DiscordConfig` are translated from
src/src/models/mod.rs.  The remaining structures model data whose Rust
definitions live in modules missing from src (models/meta.rs, pack.rs,
models/github.rs, models/modrinth.rs); they are reconstructed from the
fields main.rs uses and from the spec's data-model table. -/

/-- src/src/models/mod.rs: `GithubConfig`. -/
structure GithubConfig where
  repo_owner : Str
  repo_name : Str
deriving Repr, DecidableEq

/-- src/src/models/mod.rs: `ModrinthConfig`. -/
structure ModrinthConfig where
  project_id : Str
  staging : Option Bool
deriving Repr, DecidableEq

/-- src/src/models/mod.rs: `DiscordConfig`. -/
structure DiscordConfig where
  github_emoji_id : Str
  modrinth_emoji_id : Str
  discord_ping_role : Str
  title_emoji : Str
  embed_image_url : Str
  embed_color : Option Nat
deriving Repr, DecidableEq

/-- Modelled from the spec: the run configuration `Config` of
models/meta.rs (missing from src), with the fields main.rs reads:
`version_name_format`, `github`, `modrinth`, and the optional `discord`
block. -/
structure Config where
  version_name_format : Str
  github : GithubConfig
  modrinth : ModrinthConfig
  discord : Option DiscordConfig
deriving Repr, DecidableEq

/-- Modelled from the spec: the `versions` table of the pack descriptor
(pack.rs is missing from src); main.rs reads `minecraft` and the four
optional loader fields `quilt`, `fabric`, `forge`, `liteloader`. -/
structure PackVersions where
  minecraft : Str
  quilt : Option Str
  fabric : Option Str
  forge : Option Str
  liteloader : Option Str
deriving Repr, DecidableEq

/-- Modelled from the spec: the artifact descriptor (`pack.toml` contents)
returned by `get_pack_file` in pack.rs (missing from src); main.rs reads
`name`, `version` and `versions`. -/
structure Pack where
  name : Str
  version : Str
  versions : PackVersions
deriving Repr, DecidableEq

/-- Modelled from the spec: GitHub release response (models/github.rs is
missing from src); main.rs reads `tag_name` and `id`. -/
structure ReleaseResponse where
  tag_name : Str
  id : Nat
deriving Repr, DecidableEq

/-- Modelled from the spec: Modrinth project response (models/modrinth.rs is
missing from src); main.rs reads `slug`. -/
structure ProjectResponse where
  slug : Str
deriving Repr, DecidableEq

/-- Modelled from the spec: the output-file information returned by
`get_output_file` in pack.rs (missing from src); main.rs reads `file_path`
and `file_name`. -/
structure FileInfo where
  file_name : Str
  file_path : Str
deriving Repr, DecidableEq

/-- Outcome of `std::process::Command::output` when spawning succeeded:
the exit status of the subprocess (main.rs:111-119 never inspects it). -/
structure ExportOutput where
  status : Int
deriving Repr, DecidableEq

/-- Outcome of the `git rev-list --max-parents=0 HEAD` subprocess when
spawning succeeded: the result of decoding its stdout as UTF-8
(main.rs:160-171). -/
structure GitOutput where
  stdout : Except Unit Str

/-- Outcome of the Modrinth create-version request when the transport
succeeded: the HTTP status classification and the result of reading the
response body (main.rs:338-354). -/
structure MrResponse where
  status_success : Bool
  text : Except Unit Str

/-! ## Pure fragments of main.rs -/

/-- main.rs:126-136: the loader if/else chain over the four optional
loader fields, first match wins in the order Quilt, Fabric, Forge,
LiteLoader. -/
def loader_opt (p : Pack) : Option Str :=
  if p.versions.quilt.isSome then some "Quilt".data
  else if p.versions.fabric.isSome then some "Fabric".data
  else if p.versions.forge.isSome then some "Forge".data
  else if p.versions.liteloader.isSome then some "LiteLoader".data
  else none

/-- Number of loader fields that are declared (`is_some`). -/
def countLoaders (p : Pack) : Nat :=
  (if p.versions.quilt.isSome then 1 else 0)
  + (if p.versions.fabric.isSome then 1 else 0)
  + (if p.versions.forge.isSome then 1 else 0)
  + (if p.versions.liteloader.isSome then 1 else 0)

/-- main.rs:143-147: the display-name template substitution, a chain of
`str::replace` calls over the four placeholders. -/
def version_name (fmt name ver mc loader : Str) : Str :=
  replaceAll "%loader%".data loader
    (replaceAll "%mc_version%".data mc
      (replaceAll "%project_version%".data ver
        (replaceAll "%project_name%".data name fmt)))

/-- main.rs:193-196: pick the comparison base — the latest release tag if
the lookup produced one, the repository's first commit otherwise. -/
def compare_first (latest : Option ReleaseResponse) (firstCommit : Str) : Str :=
  match latest with
  | some release => release.tag_name
  | none => firstCommit

/-- main.rs:199-204: the compare URL. -/
def full_changelog (owner repo base : Str) : Str :=
  "https://github.com/".data ++ owner ++ "/".data ++ repo
    ++ "/compare/".data ++ base ++ "..HEAD".data

/-- main.rs:206: the markdown changelog line. -/
def changelog_markdown (owner repo base : Str) : Str :=
  "[Full Changelog](".data ++ full_changelog owner repo base ++ ")".data

/-- main.rs:322-328: Modrinth site URL, by staging flag. -/
def knossos_url (staging : Option Bool) : Str :=
  match staging with
  | some true => "https://staging.modrinth.com".data
  | some false => "https://modrinth.com".data
  | none => "https://modrinth.com".data

/-- main.rs:330-336: Modrinth API URL, by staging flag. -/
def labrinth_url (staging : Option Bool) : Str :=
  match staging with
  | some true => "https://staging-api.modrinth.com/v2".data
  | some false => "https://api.modrinth.com/v2".data
  | none => "https://api.modrinth.com/v2".data

/-! ## Descriptor (de)serialization

Modelled from the spec: main.rs re-serializes the pack descriptor with
`toml::to_string` and the descriptor file is "a structured text document
(key-value, nested)" that round-trips.  The TOML subset actually produced
for a `Pack` value is one `key = "value"` line per present field, with the
`versions` table introduced by a `[versions]` header; optional loader
fields are omitted when absent, as TOML serializers do for `None`. -/

/-- One `key = "value"` line of the serialized descriptor. -/
def serLine (key v : Str) : Str :=
  key ++ " = \"".data ++ v ++ "\"\n".data

/-- An optional line: present fields serialize to a line, absent ones to
nothing. -/
def serOptLine (key : Str) : Option Str → Str
  | some v => serLine key v
  | none => []

/-- Modelled from the spec: `toml::to_string` on the pack descriptor
(main.rs:92-99); total on this data model. -/
def serializePack (p : Pack) : Str :=
  serLine "name".data p.name
  ++ serLine "version".data p.version
  ++ "[versions]\n".data
  ++ serLine "minecraft".data p.versions.minecraft
  ++ serOptLine "quilt".data p.versions.quilt
  ++ serOptLine "fabric".data p.versions.fabric
  ++ serOptLine "forge".data p.versions.forge
  ++ serOptLine "liteloader".data p.versions.liteloader

/-- Strip an expected leading sequence, or fail. -/
def stripPrefixChars : Str → Str → Option Str
  | [], cs => some cs
  | _ :: _, [] => none
  | p :: ps, c :: cs => if p = c then stripPrefixChars ps cs else none

/-- Read characters up to the closing double quote. -/
def readQuoted : Str → Option (Str × Str)
  | [] => none
  | c :: cs =>
    if c = '"' then some ([], cs)
    else (readQuoted cs).map (fun r => (c :: r.1, r.2))

/-- Parse one `key = "value"` line, returning the value and the rest. -/
def parseLineKV (key : Str) (cs : Str) : Option (Str × Str) :=
  match stripPrefixChars (key ++ " = \"".data) cs with
  | none => none
  | some rest =>
    match readQuoted rest with
    | none => none
    | some (v, rest2) =>
      match stripPrefixChars "\n".data rest2 with
      | none => none
      | some rest3 => some (v, rest3)

/-- Parse an optional line: on failure consume nothing and yield `none`. -/
def parseOptKV (key : Str) (cs : Str) : Option Str × Str :=
  match parseLineKV key cs with
  | some (v, rest) => (some v, rest)
  | none => (none, cs)

/-- Modelled from the spec: parsing the serialized descriptor back
(`toml::from_str` on the document shape emitted by `serializePack`). -/
def parsePack (cs : Str) : Option Pack :=
  match parseLineKV "name".data cs with
  | none => none
  | some (n, r1) =>
  match parseLineKV "version".data r1 with
  | none => none
  | some (v, r2) =>
  match stripPrefixChars "[versions]\n".data r2 with
  | none => none
  | some r3 =>
  match parseLineKV "minecraft".data r3 with
  | none => none
  | some (mc, r4) =>
  match parseOptKV "quilt".data r4 with
  | (q, r5) =>
  match parseOptKV "fabric".data r5 with
  | (fb, r6) =>
  match parseOptKV "forge".data r6 with
  | (fo, r7) =>
  match parseOptKV "liteloader".data r7 with
  | (ll, r8) => if r8 = [] then some ⟨n, v, ⟨mc, q, fb, fo, ll⟩⟩ else none

/-- A string that serializes without escaping: no double quote inside. -/
def noQuote (s : Str) : Bool := s.all (fun c => !(c == '"'))

/-- A descriptor whose string fields all serialize without escaping. -/
def packWellFormed (p : Pack) : Bool :=
  noQuote p.name && noQuote p.version && noQuote p.versions.minecraft
  && (match p.versions.quilt with | some v => noQuote v | none => true)
  && (match p.versions.fabric with | some v => noQuote v | none => true)
  && (match p.versions.forge with | some v => noQuote v | none => true)
  && (match p.versions.liteloader with | some v => noQuote v | none => true)

/-! ## Pipeline state machine -/

/-- The fatal-error exits of `main` (each `return Err(...)` site, in source
order), plus `cleanUp` for the final `util::clean_up(..)?`. -/
inductive Err where
  | packwizNotFound
  | noMrpackToml
  | configRead
  | configParse
  | getPackFile
  | createTemp
  | writePack
  | exportSpawn
  | getOutputFile
  | loaderUndetermined
  | readMrpack
  | gitSpawn
  | gitUtf8
  | githubToken
  | ghSend
  | modrinthToken
  | mimePart
  | mrSend
  | mrStatus
  | discordConfig
  | getProjectSend
  | getProjectParse
  | webhookUrl
  | webhookFromUrl
  | webhookExecute
  | cleanUp
deriving Repr, DecidableEq

/-- How the process terminates: `Ok(())` from `main`, a fatal `Err`
returned from `main`, or a panic (`unwrap` on an `Err` value). -/
inductive Outcome where
  | ok
  | fatal (e : Err)
  | panicked
deriving Repr, DecidableEq

/-- Observable summary of one run: the terminal outcome, whether the
scratch directory exists at exit (`none` = never created, `some b` =
created and existing iff `b`), which publish targets were reached, the
GitHub release-asset upload result (`none` = upload not attempted), and
the version strings handed to the two publish targets. -/
structure RunResult where
  outcome : Outcome
  temp : Option Bool
  gh_release_attempted : Bool
  asset_upload_ok : Option Bool
  modrinth_attempted : Bool
  discord_attempted : Bool
  gh_tag : Option Str
  mr_version_number : Option Str

/-- Oracle for every external interaction of `main`, in source order.
`Except.error ()` marks the interaction failing at the transport / OS
level; nested values carry what the program would observe on success. -/
structure Env where
  /-- main.rs:52: `which::which("packwiz")`. -/
  packwiz_found : Bool
  /-- main.rs:59: `Path::new("mrpack.toml").exists()`. -/
  mrpack_toml_exists : Bool
  /-- main.rs:63: `fs::read_to_string("mrpack.toml")`. -/
  config_read : Except Unit Str
  /-- main.rs:65: `toml::from_str` on the config file. -/
  config_parse : Except Unit Config
  /-- main.rs:78: `get_pack_file()` (pack.rs, missing from src). -/
  get_pack_file : Except Unit Pack
  /-- main.rs:83: `create_temp()` (util.rs, missing from src). -/
  create_temp : Except Unit Unit
  /-- main.rs:103: `write_pack_file` (pack.rs, missing from src). -/
  write_pack_file : Except Unit Unit
  /-- main.rs:111-119: `Command::new("packwiz").output()`; `ok` carries the
  exit status, which the source discards with `Ok(_) => ()`. -/
  packwiz_export : Except Unit ExportOutput
  /-- main.rs:121: `get_output_file` (pack.rs, missing from src); per the
  spec it fails when no matching output file was produced. -/
  get_output_file : Except Unit FileInfo
  /-- main.rs:149: `fs::read` of the produced `.mrpack` file. -/
  read_mrpack : Except Unit (List Nat)
  /-- main.rs:160-171: the `git rev-list` subprocess. -/
  git_rev_list : Except Unit GitOutput
  /-- main.rs:173-190: GET latest release; `ok` carries the JSON-decode
  outcome. -/
  latest_release_req : Except Unit (Except Unit ReleaseResponse)
  /-- main.rs:214: `env::var("GITHUB_TOKEN")`. -/
  github_token : Option Str
  /-- main.rs:227-249: POST create release; `ok` carries the JSON-decode
  outcome. -/
  create_release_req : Except Unit (Except Unit ReleaseResponse)
  /-- main.rs:256-274: POST upload release asset. -/
  upload_asset_req : Except Unit Unit
  /-- main.rs:302: `env::var("MODRINTH_TOKEN")`. -/
  modrinth_token : Option Str
  /-- main.rs:309-316: `Part::bytes(..).mime_str("application/zip")`. -/
  mime_part : Except Unit Unit
  /-- main.rs:338-345: POST create version on Modrinth. -/
  modrinth_version_req : Except Unit MrResponse
  /-- main.rs:364-382: GET project; `ok` carries the JSON-decode outcome. -/
  get_project_req : Except Unit (Except Unit ProjectResponse)
  /-- main.rs:410: `env::var("WEBHOOK_URL")`. -/
  webhook_url : Option Str
  /-- main.rs:417: `Webhook::from_url(..)?`. -/
  webhook_from_url : Except Unit Unit
  /-- main.rs:419-422: `webhook.execute(..)?`. -/
  webhook_execute : Except Unit Unit
  /-- main.rs:427: `util::clean_up(&tmp_info.dir_path)?` (util.rs, missing
  from src; per the spec it removes the scratch directory). -/
  clean_up : Except Unit Unit

/-- main.rs:160-171: obtain the repository's first commit hash — fatal if
the subprocess cannot be run or its stdout is not UTF-8; trailing newlines
are removed with `str::replace`. -/
def first_commit : Except Unit GitOutput → Except Err Str
  | .error _ => .error .gitSpawn
  | .ok out =>
    match out.stdout with
    | .error _ => .error .gitUtf8
    | .ok s => .ok (replaceAll "\n".data [] s)

/-- main.rs:173-190: the latest-release lookup — any transport or
JSON-decode failure collapses to `None`. -/
def latest_release : Except Unit (Except Unit ReleaseResponse) → Option ReleaseResponse
  | .ok (.ok json) => some json
  | .ok (.error _) => none
  | .error _ => none

/-- main.rs:156-206: the changelog stage.  Computes the first commit
(fatal on subprocess or UTF-8 failure), the best-effort latest-release
lookup, and the markdown changelog line. -/
def changelogStage (env : Env) (cfg : Config) : Except Err Str :=
  match first_commit env.git_rev_list with
  | .error e => .error e
  | .ok fc =>
    .ok (changelog_markdown cfg.github.repo_owner cfg.github.repo_name
          (compare_first (latest_release env.latest_release_req) fc))

/-- Whether the Modrinth create-version request was sent and came back
with a success status. -/
def mrSucceeded (env : Env) : Bool :=
  match env.modrinth_version_req with
  | .ok res => res.status_success
  | .error _ => false

/-- main.rs:111-431: the pipeline from the `packwiz mr export` invocation
on, given the (possibly version-overridden) pack descriptor.  The scratch
directory exists (`temp = some true`) throughout; only the final
`clean_up` can remove it. -/
def runFromPack (discord : Bool) (env : Env) (cfg : Config) (pack_file : Pack) : RunResult :=
  -- main.rs:111-119: spawn `packwiz mr export`; the exit status of the
  -- subprocess is discarded by the source (`Ok(_) => ()`).
  match env.packwiz_export with
  | .error _ => ⟨.fatal .exportSpawn, some true, false, none, false, false, none, none⟩
  | .ok _ =>
  match env.get_output_file with
  | .error _ => ⟨.fatal .getOutputFile, some true, false, none, false, false, none, none⟩
  | .ok _output_file_info =>
  -- main.rs:126-141: loader resolution
  match loader_opt pack_file with
  | none => ⟨.fatal .loaderUndetermined, some true, false, none, false, false, none, none⟩
  | some loader =>
  -- main.rs:143-147: display name (kept for fidelity; not observed)
  let _version_name := version_name cfg.version_name_format pack_file.name
      pack_file.version pack_file.versions.minecraft loader
  -- main.rs:149-154: read the .mrpack bytes
  match env.read_mrpack with
  | .error _ => ⟨.fatal .readMrpack, some true, false, none, false, false, none, none⟩
  | .ok _mrpack_file_contents =>
  -- main.rs:156-206: changelog stage
  match changelogStage env cfg with
  | .error e => ⟨.fatal e, some true, false, none, false, false, none, none⟩
  | .ok _changelog_markdown =>
  -- main.rs:214-219: GITHUB_TOKEN
  match env.github_token with
  | none => ⟨.fatal .githubToken, some true, false, none, false, false, none, none⟩
  | some _ =>
  -- main.rs:221-225: request body carries tag_name = pack_file.version
  let gh_tag := pack_file.version
  -- main.rs:227-249: create the release; a transport error is a fatal
  -- `return Err`, a JSON-decode error is kept as an `Err` value
  match env.create_release_req with
  | .error _ => ⟨.fatal .ghSend, some true, true, none, false, false, some gh_tag, none⟩
  | .ok parse_result =>
  -- main.rs:251-278: advisory handling — on a decoded release upload the
  -- asset (either upload outcome only prints), on a decode error print;
  -- the pipeline continues in all cases
  let asset_upload_ok : Option Bool :=
    match parse_result with
    | .ok _release_res =>
      match env.upload_asset_req with
      | .ok _ => some true
      | .error _ => some false
    | .error _ => none
  -- main.rs:281-300: Modrinth section; version_number = pack_file.version
  let mr_version_number := pack_file.version
  -- main.rs:302-307: MODRINTH_TOKEN
  match env.modrinth_token with
  | none => ⟨.fatal .modrinthToken, some true, true, asset_upload_ok, true, false,
      some gh_tag, some mr_version_number⟩
  | some _ =>
  -- main.rs:309-316: multipart file part
  match env.mime_part with
  | .error _ => ⟨.fatal .mimePart, some true, true, asset_upload_ok, true, false,
      some gh_tag, some mr_version_number⟩
  | .ok _ =>
  -- main.rs:338-345: send the create-version request
  match env.modrinth_version_req with
  | .error _ => ⟨.fatal .mrSend, some true, true, asset_upload_ok, true, false,
      some gh_tag, some mr_version_number⟩
  | .ok req =>
  -- main.rs:347-354: non-2xx is fatal; building the message calls
  -- `req.text().await.unwrap()`, which panics if reading the body fails
  match req.status_success with
  | false =>
    (match req.text with
     | .ok _t => ⟨.fatal .mrStatus, some true, true, asset_upload_ok, true, false,
         some gh_tag, some mr_version_number⟩
     | .error _ => ⟨.panicked, some true, true, asset_upload_ok, true, false,
         some gh_tag, some mr_version_number⟩)
  | true =>
  -- main.rs:356-424: optional Discord notification
  match discord with
  | true =>
    (match cfg.discord with
     | none => ⟨.fatal .discordConfig, some true, true, asset_upload_ok, true, true,
         some gh_tag, some mr_version_number⟩
     | some _discord_config =>
     match env.get_project_req with
     | .error _ => ⟨.fatal .getProjectSend, some true, true, asset_upload_ok, true, true,
         some gh_tag, some mr_version_number⟩
     | .ok (.error _) => ⟨.fatal .getProjectParse, some true, true, asset_upload_ok, true, true,
         some gh_tag, some mr_version_number⟩
     | .ok (.ok _modrinth_project) =>
     match env.webhook_url with
     | none => ⟨.fatal .webhookUrl, some true, true, asset_upload_ok, true, true,
         some gh_tag, some mr_version_number⟩
     | some _ =>
     match env.webhook_from_url with
     | .error _ => ⟨.fatal .webhookFromUrl, some true, true, asset_upload_ok, true, true,
         some gh_tag, some mr_version_number⟩
     | .ok _ =>
     match env.webhook_execute with
     | .error _ => ⟨.fatal .webhookExecute, some true, true, asset_upload_ok, true, true,
         some gh_tag, some mr_version_number⟩
     | .ok _ =>
     -- main.rs:427: util::clean_up(..)?
     match env.clean_up with
     | .error _ => ⟨.fatal .cleanUp, some true, true, asset_upload_ok, true, true,
         some gh_tag, some mr_version_number⟩
     | .ok _ => ⟨.ok, some false, true, asset_upload_ok, true, true,
         some gh_tag, some mr_version_number⟩)
  | false =>
    -- main.rs:427: util::clean_up(..)?
    match env.clean_up with
    | .error _ => ⟨.fatal .cleanUp, some true, true, asset_upload_ok, true, false,
        some gh_tag, some mr_version_number⟩
    | .ok _ => ⟨.ok, some false, true, asset_upload_ok, true, false,
        some gh_tag, some mr_version_number⟩

/-- main.rs:44-431: the whole run of `Commands::Run { discord, version }`.
Mirrors the early `return Err(..)` exits before the scratch directory is
created, the optional version override (which re-serializes the
descriptor with `serializePack` — total on this model, so the
`toml::to_string` error branch of main.rs:92-99 is unreachable — and
writes it via `write_pack_file`), then hands over to `runFromPack`. -/
def runPipeline (discord : Bool) (version : Option Str) (env : Env) : RunResult :=
  -- main.rs:52-55: packwiz must be on the PATH
  match env.packwiz_found with
  | false => ⟨.fatal .packwizNotFound, none, false, none, false, false, none, none⟩
  | true =>
  -- main.rs:59-61: mrpack.toml must exist
  match env.mrpack_toml_exists with
  | false => ⟨.fatal .noMrpackToml, none, false, none, false, false, none, none⟩
  | true =>
  -- main.rs:63-76: read and parse the config file
  match env.config_read with
  | .error _ => ⟨.fatal .configRead, none, false, none, false, false, none, none⟩
  | .ok _ =>
  match env.config_parse with
  | .error _ => ⟨.fatal .configParse, none, false, none, false, false, none, none⟩
  | .ok config_file =>
  -- main.rs:78-81: read the pack descriptor
  match env.get_pack_file with
  | .error _ => ⟨.fatal .getPackFile, none, false, none, false, false, none, none⟩
  | .ok pack_file =>
  -- main.rs:83-86: create the scratch directory
  match env.create_temp with
  | .error _ => ⟨.fatal .createTemp, none, false, none, false, false, none, none⟩
  | .ok _ =>
  -- main.rs:88-109: optional version override
  match version with
  | some ver =>
    (match env.write_pack_file with
     | .error _ => ⟨.fatal .writePack, some true, false, none, false, false, none, none⟩
     | .ok _ => runFromPack discord env config_file { pack_file with version := ver })
  | none => runFromPack discord env config_file pack_file

/-! ## Concrete fixtures -/

/-- A concrete run configuration (repo `acme/pack`, project `xyz123`,
production endpoint, no Discord block). -/
def cfgA : Config :=
  ⟨"%project_name% %project_version% %loader%".data,
   ⟨"acme".data, "pack".data⟩, ⟨"xyz123".data, none⟩, none⟩

/-- A concrete descriptor declaring exactly the Fabric loader. -/
def packA : Pack :=
  ⟨"AcmePack".data, "1.2.0".data, ⟨"1.20.1".data, none, some "0.14.21".data, none, none⟩⟩

/-- A descriptor declaring exactly the Quilt loader. -/
def packQ : Pack :=
  ⟨"AcmePack".data, "1.2.0".data, ⟨"1.20.1".data, some "0.19.2".data, none, none, none⟩⟩

/-- A descriptor declaring two loaders at once (Quilt and Fabric). -/
def packQF : Pack :=
  ⟨"AcmePack".data, "1.2.0".data,
   ⟨"1.20.1".data, some "0.19.2".data, some "0.14.21".data, none, none⟩⟩

/-- A descriptor declaring no loader at all. -/
def packNone : Pack :=
  ⟨"AcmePack".data, "1.2.0".data, ⟨"1.20.1".data, none, none, none, none⟩⟩

/-- A latest-release response with tag `v1.0.0`. -/
def relA : ReleaseResponse := ⟨"v1.0.0".data, 17⟩

/-- An oracle in which every external interaction succeeds. -/
def envAllOk : Env where
  packwiz_found := true
  mrpack_toml_exists := true
  config_read := .ok "raw config".data
  config_parse := .ok cfgA
  get_pack_file := .ok packA
  create_temp := .ok ()
  write_pack_file := .ok ()
  packwiz_export := .ok ⟨0⟩
  get_output_file := .ok ⟨"pack-1.2.0.mrpack".data, "/tmp/mrpack/pack-1.2.0.mrpack".data⟩
  read_mrpack := .ok [80, 75, 3, 4]
  git_rev_list := .ok ⟨.ok "abc123\n".data⟩
  latest_release_req := .ok (.ok relA)
  github_token := some "gh-token".data
  create_release_req := .ok (.ok relA)
  upload_asset_req := .ok ()
  modrinth_token := some "mr-token".data
  mime_part := .ok ()
  modrinth_version_req := .ok ⟨true, .ok "created".data⟩
  get_project_req := .ok (.ok ⟨"acme-pack".data⟩)
  webhook_url := some "https://discord.example/webhook".data
  webhook_from_url := .ok ()
  webhook_execute := .ok ()
  clean_up := .ok ()

/-- All-ok oracle except `GITHUB_TOKEN` is absent: a fatal error after the
scratch directory was created. -/
def envNoGithubToken : Env := { envAllOk with github_token := none }

/-- All-ok oracle except `packwiz mr export` exits with status 1 while a
matching output file is still found. -/
def envNonzeroExit : Env := { envAllOk with packwiz_export := .ok ⟨1⟩ }

/-- All-ok oracle except the `git rev-list` subprocess fails to run. -/
def envGitFail : Env := { envAllOk with git_rev_list := .error () }

/-- All-ok oracle except the latest-release lookup fails at the transport
level. -/
def envLatestFail : Env := { envAllOk with latest_release_req := .error () }

/-- All-ok oracle except the create-release request fails at the transport
level. -/
def envGhSendFail : Env := { envAllOk with create_release_req := .error () }

/-- All-ok oracle except the create-release response fails to decode and
the asset upload fails. -/
def envGhParseFail : Env :=
  { envAllOk with create_release_req := .ok (.error ()), upload_asset_req := .error () }

/-- All-ok oracle except Modrinth answers non-2xx and reading the response
body fails. -/
def envMrTextFail : Env :=
  { envAllOk with modrinth_version_req := .ok ⟨false, .error ()⟩ }

/-- All-ok oracle except Modrinth answers non-2xx with a readable error
body. -/
def envMrNon2xx : Env :=
  { envAllOk with modrinth_version_req := .ok ⟨false, .ok "invalid input".data⟩ }


/-! ## Helper lemmas: string replacement and descriptor round-trip -/

theorem containsSub_nil_pat (s : Str) : containsSub [] s = true := by
  cases s <;> simp [containsSub, List.isPrefixOf]

theorem replaceAllFuel_of_not_containsSub (pat rep : Str) :
    ∀ (fuel : Nat) (s : Str), containsSub pat s = false → replaceAllFuel pat rep fuel s = s := by
  intro fuel
  induction fuel with
  | zero => intro s _; cases s <;> rfl
  | succ n ih =>
    intro s h
    cases s with
    | nil => rfl
    | cons c cs =>
      simp only [containsSub, Bool.or_eq_false_iff] at h
      simp [replaceAllFuel, h.1, ih cs h.2]

theorem replaceAll_of_not_containsSub (pat rep s : Str) (h : containsSub pat s = false) :
    replaceAll pat rep s = s := by
  have hpat : pat ≠ [] := by
    intro he
    rw [he, containsSub_nil_pat] at h
    simp at h
  simp [replaceAll, hpat, replaceAllFuel_of_not_containsSub pat rep s.length s h]

theorem stripPrefixChars_append (p cs : Str) : stripPrefixChars p (p ++ cs) = some cs := by
  induction p <;> simp_all [stripPrefixChars]

theorem readQuoted_append (v rest : Str) (h : ('"' : Char) ∉ v) :
    readQuoted (v ++ '"' :: rest) = some (v, rest) := by
  induction v with
  | nil => simp [readQuoted]
  | cons c cs ih =>
    simp only [List.mem_cons, not_or] at h
    have hc : c ≠ '"' := fun he => h.1 he.symm
    simp [readQuoted, hc, ih h.2]

theorem parseLineKV_append (key v rest : Str) (h : ('"' : Char) ∉ v) :
    parseLineKV key (serLine key v ++ rest) = some (v, rest) := by
  have e : serLine key v ++ rest = (key ++ " = \"".data) ++ (v ++ '"' :: '\n' :: rest) := by
    show (key ++ " = \"".data ++ v ++ "\"\n".data) ++ rest = _
    rw [show ("\"\n".data : Str) = ['"', '\n'] from rfl]
    simp [List.append_assoc]
  unfold parseLineKV
  rw [e, stripPrefixChars_append]
  dsimp only
  rw [readQuoted_append v _ h]
  dsimp only
  simp [stripPrefixChars]

theorem parseLineKV_nil (key : Str) : parseLineKV key [] = none := by
  cases key <;> rfl

theorem parseOptKV_hit (key v rest : Str) (h : ('"' : Char) ∉ v) :
    parseOptKV key (serLine key v ++ rest) = (some v, rest) := by
  simp [parseOptKV, parseLineKV_append key v rest h]

theorem parseOptKV_nil (key : Str) : parseOptKV key [] = (none, []) := by
  simp [parseOptKV, parseLineKV_nil]

theorem noQuote_iff (s : Str) : noQuote s = true ↔ ('"' : Char) ∉ s := by
  simp [noQuote, List.all_eq_true]
  constructor
  · intro hall hmem
    exact hall '"' hmem rfl
  · intro hnm c hc he
    exact hnm (he ▸ hc)

theorem parseLineKV_quilt_f2 (cs : Str) : parseLineKV ['q', 'u', 'i', 'l', 't'] ('f' :: cs) = none := by
  simp [parseLineKV, stripPrefixChars]

theorem parseLineKV_quilt_l2 (cs : Str) : parseLineKV ['q', 'u', 'i', 'l', 't'] ('l' :: cs) = none := by
  simp [parseLineKV, stripPrefixChars]

theorem parseLineKV_fabric_fo2 (cs : Str) : parseLineKV ['f', 'a', 'b', 'r', 'i', 'c'] ('f' :: 'o' :: cs) = none := by
  simp [parseLineKV, stripPrefixChars]

theorem parseLineKV_fabric_l2 (cs : Str) : parseLineKV ['f', 'a', 'b', 'r', 'i', 'c'] ('l' :: cs) = none := by
  simp [parseLineKV, stripPrefixChars]

theorem parseLineKV_forge_l2 (cs : Str) : parseLineKV ['f', 'o', 'r', 'g', 'e'] ('l' :: cs) = none := by
  simp [parseLineKV, stripPrefixChars]

theorem parseOptKV_skip_q_fb (v rest : Str) :
    parseOptKV ['q', 'u', 'i', 'l', 't'] (serLine ['f', 'a', 'b', 'r', 'i', 'c'] v ++ rest)
      = (none, serLine ['f', 'a', 'b', 'r', 'i', 'c'] v ++ rest) := by
  have e : serLine ['f', 'a', 'b', 'r', 'i', 'c'] v ++ rest
      = 'f' :: ("abric".data ++ (" = \"".data ++ (v ++ '"' :: '\n' :: rest))) := by
    show ((['f', 'a', 'b', 'r', 'i', 'c'] : Str) ++ " = \"".data ++ v ++ "\"\n".data) ++ rest = _
    rw [show ((['f', 'a', 'b', 'r', 'i', 'c'] : Str)) = "fabric".data from rfl,
        show ("fabric".data : Str) = 'f' :: "abric".data from rfl,
        show ("\"\n".data : Str) = ['"', '\n'] from rfl]
    simp [List.append_assoc]
  unfold parseOptKV
  rw [e, parseLineKV_quilt_f2]

theorem parseOptKV_skip_q_fo (v rest : Str) :
    parseOptKV ['q', 'u', 'i', 'l', 't'] (serLine ['f', 'o', 'r', 'g', 'e'] v ++ rest)
      = (none, serLine ['f', 'o', 'r', 'g', 'e'] v ++ rest) := by
  have e : serLine ['f', 'o', 'r', 'g', 'e'] v ++ rest
      = 'f' :: ("orge".data ++ (" = \"".data ++ (v ++ '"' :: '\n' :: rest))) := by
    show ((['f', 'o', 'r', 'g', 'e'] : Str) ++ " = \"".data ++ v ++ "\"\n".data) ++ rest = _
    rw [show ((['f', 'o', 'r', 'g', 'e'] : Str)) = "forge".data from rfl,
        show ("forge".data : Str) = 'f' :: "orge".data from rfl,
        show ("\"\n".data : Str) = ['"', '\n'] from rfl]
    simp [List.append_assoc]
  unfold parseOptKV
  rw [e, parseLineKV_quilt_f2]

theorem parseOptKV_skip_q_ll (v rest : Str) :
    parseOptKV ['q', 'u', 'i', 'l', 't'] (serLine ['l', 'i', 't', 'e', 'l', 'o', 'a', 'd', 'e', 'r'] v ++ rest)
      = (none, serLine ['l', 'i', 't', 'e', 'l', 'o', 'a', 'd', 'e', 'r'] v ++ rest) := by
  have e : serLine ['l', 'i', 't', 'e', 'l', 'o', 'a', 'd', 'e', 'r'] v ++ rest
      = 'l' :: ("iteloader".data ++ (" = \"".data ++ (v ++ '"' :: '\n' :: rest))) := by
    show ((['l', 'i', 't', 'e', 'l', 'o', 'a', 'd', 'e', 'r'] : Str) ++ " = \"".data ++ v ++ "\"\n".data) ++ rest = _
    rw [show ((['l', 'i', 't', 'e', 'l', 'o', 'a', 'd', 'e', 'r'] : Str)) = "liteloader".data from rfl,
        show ("liteloader".data : Str) = 'l' :: "iteloader".data from rfl,
        show ("\"\n".data : Str) = ['"', '\n'] from rfl]
    simp [List.append_assoc]
  unfold parseOptKV
  rw [e, parseLineKV_quilt_l2]

theorem parseOptKV_skip_fb_fo (v rest : Str) :
    parseOptKV ['f', 'a', 'b', 'r', 'i', 'c'] (serLine ['f', 'o', 'r', 'g', 'e'] v ++ rest)
      = (none, serLine ['f', 'o', 'r', 'g', 'e'] v ++ rest) := by
  have e : serLine ['f', 'o', 'r', 'g', 'e'] v ++ rest
      = 'f' :: 'o' :: ("rge".data ++ (" = \"".data ++ (v ++ '"' :: '\n' :: rest))) := by
    show ((['f', 'o', 'r', 'g', 'e'] : Str) ++ " = \"".data ++ v ++ "\"\n".data) ++ rest = _
    rw [show ((['f', 'o', 'r', 'g', 'e'] : Str)) = "forge".data from rfl,
        show ("forge".data : Str) = 'f' :: 'o' :: "rge".data from rfl,
        show ("\"\n".data : Str) = ['"', '\n'] from rfl]
    simp [List.append_assoc]
  unfold parseOptKV
  rw [e, parseLineKV_fabric_fo2]

theorem parseOptKV_skip_fb_ll (v rest : Str) :
    parseOptKV ['f', 'a', 'b', 'r', 'i', 'c'] (serLine ['l', 'i', 't', 'e', 'l', 'o', 'a', 'd', 'e', 'r'] v ++ rest)
      = (none, serLine ['l', 'i', 't', 'e', 'l', 'o', 'a', 'd', 'e', 'r'] v ++ rest) := by
  have e : serLine ['l', 'i', 't', 'e', 'l', 'o', 'a', 'd', 'e', 'r'] v ++ rest
      = 'l' :: ("iteloader".data ++ (" = \"".data ++ (v ++ '"' :: '\n' :: rest))) := by
    show ((['l', 'i', 't', 'e', 'l', 'o', 'a', 'd', 'e', 'r'] : Str) ++ " = \"".data ++ v ++ "\"\n".data) ++ rest = _
    rw [show ((['l', 'i', 't', 'e', 'l', 'o', 'a', 'd', 'e', 'r'] : Str)) = "liteloader".data from rfl,
        show ("liteloader".data : Str) = 'l' :: "iteloader".data from rfl,
        show ("\"\n".data : Str) = ['"', '\n'] from rfl]
    simp [List.append_assoc]
  unfold parseOptKV
  rw [e, parseLineKV_fabric_l2]

theorem parseOptKV_skip_fo_ll (v rest : Str) :
    parseOptKV ['f', 'o', 'r', 'g', 'e'] (serLine ['l', 'i', 't', 'e', 'l', 'o', 'a', 'd', 'e', 'r'] v ++ rest)
      = (none, serLine ['l', 'i', 't', 'e', 'l', 'o', 'a', 'd', 'e', 'r'] v ++ rest) := by
  have e : serLine ['l', 'i', 't', 'e', 'l', 'o', 'a', 'd', 'e', 'r'] v ++ rest
      = 'l' :: ("iteloader".data ++ (" = \"".data ++ (v ++ '"' :: '\n' :: rest))) := by
    show ((['l', 'i', 't', 'e', 'l', 'o', 'a', 'd', 'e', 'r'] : Str) ++ " = \"".data ++ v ++ "\"\n".data) ++ rest = _
    rw [show ((['l', 'i', 't', 'e', 'l', 'o', 'a', 'd', 'e', 'r'] : Str)) = "liteloader".data from rfl,
        show ("liteloader".data : Str) = 'l' :: "iteloader".data from rfl,
        show ("\"\n".data : Str) = ['"', '\n'] from rfl]
    simp [List.append_assoc]
  unfold parseOptKV
  rw [e, parseLineKV_forge_l2]

theorem parseOptKV_skip_q_fb_nil (v : Str) :
    parseOptKV ['q', 'u', 'i', 'l', 't'] (serLine ['f', 'a', 'b', 'r', 'i', 'c'] v) = (none, serLine ['f', 'a', 'b', 'r', 'i', 'c'] v) := by
  have h := parseOptKV_skip_q_fb v []
  rwa [List.append_nil] at h

theorem parseOptKV_skip_q_fo_nil (v : Str) :
    parseOptKV ['q', 'u', 'i', 'l', 't'] (serLine ['f', 'o', 'r', 'g', 'e'] v) = (none, serLine ['f', 'o', 'r', 'g', 'e'] v) := by
  have h := parseOptKV_skip_q_fo v []
  rwa [List.append_nil] at h

theorem parseOptKV_skip_q_ll_nil (v : Str) :
    parseOptKV ['q', 'u', 'i', 'l', 't'] (serLine ['l', 'i', 't', 'e', 'l', 'o', 'a', 'd', 'e', 'r'] v) = (none, serLine ['l', 'i', 't', 'e', 'l', 'o', 'a', 'd', 'e', 'r'] v) := by
  have h := parseOptKV_skip_q_ll v []
  rwa [List.append_nil] at h

theorem parseOptKV_skip_fb_fo_nil (v : Str) :
    parseOptKV ['f', 'a', 'b', 'r', 'i', 'c'] (serLine ['f', 'o', 'r', 'g', 'e'] v) = (none, serLine ['f', 'o', 'r', 'g', 'e'] v) := by
  have h := parseOptKV_skip_fb_fo v []
  rwa [List.append_nil] at h

theorem parseOptKV_skip_fb_ll_nil (v : Str) :
    parseOptKV ['f', 'a', 'b', 'r', 'i', 'c'] (serLine ['l', 'i', 't', 'e', 'l', 'o', 'a', 'd', 'e', 'r'] v) = (none, serLine ['l', 'i', 't', 'e', 'l', 'o', 'a', 'd', 'e', 'r'] v) := by
  have h := parseOptKV_skip_fb_ll v []
  rwa [List.append_nil] at h

theorem parseOptKV_skip_fo_ll_nil (v : Str) :
    parseOptKV ['f', 'o', 'r', 'g', 'e'] (serLine ['l', 'i', 't', 'e', 'l', 'o', 'a', 'd', 'e', 'r'] v) = (none, serLine ['l', 'i', 't', 'e', 'l', 'o', 'a', 'd', 'e', 'r'] v) := by
  have h := parseOptKV_skip_fo_ll v []
  rwa [List.append_nil] at h

theorem parseLineKV_append_nil (key v : Str) (h : ('"' : Char) ∉ v) :
    parseLineKV key (serLine key v) = some (v, []) := by
  have h2 := parseLineKV_append key v [] h
  rwa [List.append_nil] at h2

theorem parseOptKV_hit_nil (key v : Str) (h : ('"' : Char) ∉ v) :
    parseOptKV key (serLine key v) = (some v, []) := by
  simp [parseOptKV, parseLineKV_append_nil key v h]

set_option maxHeartbeats 1600000 in
theorem parsePack_serializePack (p : Pack) (h : packWellFormed p = true) :
    parsePack (serializePack p) = some p := by
  obtain ⟨nm, ver, mc, q, fb, fo, ll⟩ := p
  rcases q with _ | qv <;> rcases fb with _ | fv <;> rcases fo with _ | ov <;> rcases ll with _ | lv <;>
    simp_all [packWellFormed, noQuote_iff, parsePack, serializePack, serOptLine,
      stripPrefixChars, parseLineKV_append, parseLineKV_append_nil, parseOptKV_hit,
      parseOptKV_hit_nil, parseOptKV_nil, parseOptKV_skip_q_fb, parseOptKV_skip_q_fo,
      parseOptKV_skip_q_ll, parseOptKV_skip_fb_fo, parseOptKV_skip_fb_ll, parseOptKV_skip_fo_ll,
      parseOptKV_skip_q_fb_nil, parseOptKV_skip_q_fo_nil, parseOptKV_skip_q_ll_nil,
      parseOptKV_skip_fb_fo_nil, parseOptKV_skip_fb_ll_nil, parseOptKV_skip_fo_ll_nil,
      List.append_assoc]

end Mrpack

namespace Mrpack

set_option maxHeartbeats 1600000 in
theorem runFromPack_spec (d : Bool) (env : Env) (cfg : Config) (p : Pack) :
    ((runFromPack d env cfg p).outcome = Outcome.ok ↔ (runFromPack d env cfg p).temp = some false)
  ∧ ((runFromPack d env cfg p).gh_release_attempted = true →
      (∀ x, env.create_release_req = Except.ok x → (runFromPack d env cfg p).modrinth_attempted = true)
    ∧ (∀ e, env.create_release_req = Except.error e →
        (runFromPack d env cfg p).modrinth_attempted = false
        ∧ (runFromPack d env cfg p).outcome = Outcome.fatal Err.ghSend))
  ∧ (∀ x e, env.create_release_req = Except.ok x → env.upload_asset_req = Except.error e →
      (runFromPack d env cfg p).gh_release_attempted = true →
      (runFromPack d env cfg p).modrinth_attempted = true
      ∧ (x.isOk → (runFromPack d env cfg p).asset_upload_ok = some false))
  ∧ ((runFromPack d env cfg p).discord_attempted = true → d = true ∧ mrSucceeded env = true)
  ∧ (∀ tk req t, env.modrinth_token = some tk → env.mime_part = Except.ok () →
      env.modrinth_version_req = Except.ok req → req.status_success = false →
      req.text = Except.ok t → (runFromPack d env cfg p).modrinth_attempted = true →
      (runFromPack d env cfg p).outcome = Outcome.fatal Err.mrStatus
      ∧ (runFromPack d env cfg p).discord_attempted = false)
  ∧ ((∀ t, (runFromPack d env cfg p).gh_tag = some t → t = p.version)
    ∧ (∀ n, (runFromPack d env cfg p).mr_version_number = some n → n = p.version)) := by
  unfold runFromPack
  repeat' split
  all_goals refine ⟨?_, ?_, ?_, ?_, ?_, ?_, ?_⟩
  all_goals intros
  all_goals simp_all [Except.isOk, Except.toBool, mrSucceeded]

end Mrpack

namespace Mrpack

/-- C1 (amended): the scratch directory is removed exactly on the runs
that reach the end of the pipeline: a run that terminates `Ok` has removed
it, and a run that terminates on any fatal error (or panic) has not. -/
theorem c1_cleanup_only_on_success (d : Bool) (v : Option Str) (env : Env) :
    ((runPipeline d v env).outcome = Outcome.ok → (runPipeline d v env).temp = some false)
  ∧ ((runPipeline d v env).outcome ≠ Outcome.ok → (runPipeline d v env).temp ≠ some false) := by
  unfold runPipeline
  repeat' split
  all_goals first
    | exact ⟨fun h => (runFromPack_spec _ _ _ _).1.mp h,
             fun h hc => h ((runFromPack_spec _ _ _ _).1.mpr hc)⟩
    | simp_all

theorem c1_witness : (runPipeline false none envAllOk).temp = some false :=
  (c1_cleanup_only_on_success false none envAllOk).1 rfl

theorem c1_counterexample :
    (runPipeline false none envNoGithubToken).outcome ≠ Outcome.ok
  ∧ (runPipeline false none envNoGithubToken).temp = some true :=
  ⟨by decide, rfl⟩

/-- C2 (code bug): `packwiz mr export` exits with status 1, yet the run
proceeds through every publish target and exits 0, because main.rs:111-119
matches `Ok(_)` on `Command::output`, which only reflects spawn success. -/
theorem c2_build_exit_status_ignored :
    envNonzeroExit.packwiz_export = Except.ok ⟨1⟩
  ∧ (runPipeline false none envNonzeroExit).outcome = Outcome.ok
  ∧ (runPipeline false none envNonzeroExit).gh_release_attempted = true
  ∧ (runPipeline false none envNonzeroExit).modrinth_attempted = true :=
  ⟨rfl, rfl, rfl, rfl⟩

/-- C3 (amended): with exactly one loader declared resolution returns its
name and with zero it fails, but with more than one declared it does not
fail: it returns the first declared in the order Quilt, Fabric, Forge,
LiteLoader. -/
theorem c3_loader_resolution_amended (p : Pack) :
    (p.versions.quilt.isSome = true ∧ p.versions.fabric = none ∧ p.versions.forge = none
       ∧ p.versions.liteloader = none → loader_opt p = some "Quilt".data)
  ∧ (p.versions.quilt = none ∧ p.versions.fabric.isSome = true ∧ p.versions.forge = none
       ∧ p.versions.liteloader = none → loader_opt p = some "Fabric".data)
  ∧ (p.versions.quilt = none ∧ p.versions.fabric = none ∧ p.versions.forge.isSome = true
       ∧ p.versions.liteloader = none → loader_opt p = some "Forge".data)
  ∧ (p.versions.quilt = none ∧ p.versions.fabric = none ∧ p.versions.forge = none
       ∧ p.versions.liteloader.isSome = true → loader_opt p = some "LiteLoader".data)
  ∧ (p.versions.quilt = none ∧ p.versions.fabric = none ∧ p.versions.forge = none
       ∧ p.versions.liteloader = none → loader_opt p = none)
  ∧ (1 < countLoaders p → loader_opt p ≠ none) := by
  rcases p with ⟨nm, ver, ⟨mc, q, fb, fo, ll⟩⟩
  rcases q with _ | qv <;> rcases fb with _ | fv <;> rcases fo with _ | ov <;> rcases ll with _ | lv <;>
    simp_all [loader_opt, countLoaders]

theorem c3_witness : loader_opt packQ = some "Quilt".data :=
  (c3_loader_resolution_amended packQ).1 ⟨rfl, rfl, rfl, rfl⟩

theorem c3_counterexample :
    packQF.versions.quilt.isSome = true ∧ packQF.versions.fabric.isSome = true
  ∧ loader_opt packQF ≠ none ∧ loader_opt packQF = some "Quilt".data :=
  ⟨rfl, rfl, by decide, rfl⟩

/-- C4 (amended): the changelog stage aborts the pipeline exactly when the
first-commit retrieval (the `git rev-list` subprocess or its UTF-8
decoding) fails; the prior-release HTTP lookup never aborts it, and when
that lookup fails the changelog falls back to comparing from the first
commit. -/
theorem c4_changelog_amended (env : Env) (cfg : Config) :
    ((∃ s, changelogStage env cfg = Except.ok s)
      ↔ (∃ s, first_commit env.git_rev_list = Except.ok s))
  ∧ (∀ s, first_commit env.git_rev_list = Except.ok s →
      latest_release env.latest_release_req = none →
      changelogStage env cfg
        = Except.ok (changelog_markdown cfg.github.repo_owner cfg.github.repo_name s)) := by
  constructor
  · cases h : first_commit env.git_rev_list <;> simp [changelogStage, h]
  · intro s hs hlat
    simp [changelogStage, hs, hlat, compare_first]

theorem c4_witness :
    changelogStage envLatestFail cfgA
      = Except.ok (changelog_markdown "acme".data "pack".data "abc123".data) :=
  (c4_changelog_amended envLatestFail cfgA).2 "abc123".data rfl rfl

theorem c4_counterexample :
    changelogStage envGitFail cfgA = Except.error Err.gitSpawn
  ∧ (runPipeline false none envGitFail).outcome = Outcome.fatal Err.gitSpawn :=
  ⟨rfl, rfl⟩

/-- C5 (amended): once the create-release request has been sent, any
response (including a JSON-decode failure) and any asset-upload failure
are advisory — the Modrinth publish is still attempted — but a transport
failure of the create-release request itself is fatal and prevents the
Modrinth publish. -/
theorem c5_github_advisory_amended (d : Bool) (v : Option Str) (env : Env) :
    ((runPipeline d v env).gh_release_attempted = true →
      (∀ x, env.create_release_req = Except.ok x →
        (runPipeline d v env).modrinth_attempted = true)
    ∧ (∀ e, env.create_release_req = Except.error e →
        (runPipeline d v env).modrinth_attempted = false
        ∧ (runPipeline d v env).outcome = Outcome.fatal Err.ghSend))
  ∧ (∀ x e, env.create_release_req = Except.ok x → env.upload_asset_req = Except.error e →
      (runPipeline d v env).gh_release_attempted = true →
      (runPipeline d v env).modrinth_attempted = true
      ∧ (x.isOk → (runPipeline d v env).asset_upload_ok = some false)) := by
  unfold runPipeline
  repeat' split
  all_goals first
    | exact ⟨(runFromPack_spec _ _ _ _).2.1, (runFromPack_spec _ _ _ _).2.2.1⟩
    | simp_all

theorem c5_witness : (runPipeline false none envGhParseFail).modrinth_attempted = true :=
  ((c5_github_advisory_amended false none envGhParseFail).1 rfl).1 (Except.error ()) rfl

theorem c5_counterexample :
    envGhSendFail.create_release_req = Except.error ()
  ∧ (runPipeline false none envGhSendFail).gh_release_attempted = true
  ∧ (runPipeline false none envGhSendFail).modrinth_attempted = false
  ∧ (runPipeline false none envGhSendFail).outcome = Outcome.fatal Err.ghSend :=
  ⟨rfl, rfl, rfl, rfl⟩

/-- C6: with an override version V the descriptor is rewritten to version
V and round-trips through (de)serialization with version V, and every
version string later handed to a publish target (GitHub tag, Modrinth
version number) equals V, whatever the descriptor originally stored. -/
theorem c6_version_override (p : Pack) (V : Str) (d : Bool) (env : Env) :
    (packWellFormed p = true → noQuote V = true →
      Option.map Pack.version (parsePack (serializePack { p with version := V })) = some V)
  ∧ (∀ t, (runPipeline d (some V) env).gh_tag = some t → t = V)
  ∧ (∀ n, (runPipeline d (some V) env).mr_version_number = some n → n = V) := by
  refine ⟨?_, ?_, ?_⟩
  · intro hp hV
    have hwf : packWellFormed { p with version := V } = true := by
      simp_all [packWellFormed]
    rw [parsePack_serializePack _ hwf]
    simp
  · unfold runPipeline
    repeat' split
    all_goals try simp_all
    all_goals intro t ht
    all_goals have h := (runFromPack_spec _ _ _ _).2.2.2.2.2.1 t ht
    all_goals simpa using h
  · unfold runPipeline
    repeat' split
    all_goals try simp_all
    all_goals intro n hn
    all_goals have h := (runFromPack_spec _ _ _ _).2.2.2.2.2.2 n hn
    all_goals simpa using h

theorem c6_witness :
    Option.map Pack.version (parsePack (serializePack { packA with version := "2.0.0".data }))
      = some "2.0.0".data :=
  (c6_version_override packA "2.0.0".data false envAllOk).1 (by decide) (by decide)

/-- C7 (amended): a non-2xx Modrinth response whose error body can be read
is fatal to the run but surfaces as a returned error, and the Discord
notification runs only when requested and after a successful Modrinth
upload; however if reading the non-2xx body itself fails, the `unwrap` at
main.rs:352 panics. -/
theorem c7_modrinth_fatal_amended (d : Bool) (v : Option Str) (env : Env) :
    ((runPipeline d v env).discord_attempted = true → d = true ∧ mrSucceeded env = true)
  ∧ (∀ tk req t, env.modrinth_token = some tk → env.mime_part = Except.ok () →
      env.modrinth_version_req = Except.ok req → req.status_success = false →
      req.text = Except.ok t → (runPipeline d v env).modrinth_attempted = true →
      (runPipeline d v env).outcome = Outcome.fatal Err.mrStatus
      ∧ (runPipeline d v env).discord_attempted = false) := by
  unfold runPipeline
  repeat' split
  all_goals first
    | exact ⟨(runFromPack_spec _ _ _ _).2.2.2.1, (runFromPack_spec _ _ _ _).2.2.2.2.1⟩
    | simp_all

theorem c7_witness :
    (runPipeline false none envMrNon2xx).outcome = Outcome.fatal Err.mrStatus
  ∧ (runPipeline false none envMrNon2xx).discord_attempted = false :=
  (c7_modrinth_fatal_amended false none envMrNon2xx).2 "mr-token".data
    ⟨false, Except.ok "invalid input".data⟩ "invalid input".data rfl rfl rfl rfl rfl rfl

theorem c7_counterexample :
    envMrTextFail.modrinth_version_req = Except.ok ⟨false, Except.error ()⟩
  ∧ (runPipeline false none envMrTextFail).outcome = Outcome.panicked :=
  ⟨rfl, rfl⟩

/-- C8: the display name substitutes the four placeholders into the
template, and a template containing none of the four placeholders (for
instance one with only unrecognized tokens) is returned verbatim, without
any error. -/
theorem c8_template_substitution (fmt n v m l : Str) :
    (version_name "%project_name% %project_version% for %mc_version% %loader% %unknown%".data
        "Sodium".data "1.2.0".data "1.20.1".data "Quilt".data
      = "Sodium 1.2.0 for 1.20.1 Quilt %unknown%".data)
  ∧ (containsSub "%project_name%".data fmt = false →
     containsSub "%project_version%".data fmt = false →
     containsSub "%mc_version%".data fmt = false →
     containsSub "%loader%".data fmt = false →
     version_name fmt n v m l = fmt) := by
  constructor
  · rfl
  · intro h1 h2 h3 h4
    unfold version_name
    rw [replaceAll_of_not_containsSub _ _ _ h1, replaceAll_of_not_containsSub _ _ _ h2,
        replaceAll_of_not_containsSub _ _ _ h3, replaceAll_of_not_containsSub _ _ _ h4]

theorem c8_witness :
    version_name "Static Name".data "Sodium".data "1.2.0".data "1.20.1".data "Quilt".data
      = "Static Name".data :=
  (c8_template_substitution "Static Name".data "Sodium".data "1.2.0".data "1.20.1".data
    "Quilt".data).2 (by decide) (by decide) (by decide) (by decide)

/-- C9: whenever the changelog stage produces a changelog, it is a
non-empty string (it always starts with the literal markdown link text). -/
theorem c9_changelog_nonempty (env : Env) (cfg : Config) (s : Str)
    (h : changelogStage env cfg = Except.ok s) : 0 < s.length := by
  unfold changelogStage at h
  cases hf : first_commit env.git_rev_list with
  | error e => rw [hf] at h; exact absurd h (by simp)
  | ok fc =>
    rw [hf] at h
    simp only [Except.ok.injEq] at h
    subst h
    simp [changelog_markdown, full_changelog]

theorem c9_witness :
    0 < (changelog_markdown "acme".data "pack".data "v1.0.0".data).length :=
  c9_changelog_nonempty envAllOk cfgA
    (changelog_markdown "acme".data "pack".data "v1.0.0".data) rfl

/-- C10: when more than one loader field is declared, resolution does not
fail; it returns the first declared loader in the fixed order Quilt,
Fabric, Forge, LiteLoader. -/
theorem c10_loader_priority (p : Pack) (h : 1 < countLoaders p) :
    loader_opt p ≠ none
  ∧ (p.versions.quilt.isSome = true → loader_opt p = some "Quilt".data)
  ∧ (p.versions.quilt = none → p.versions.fabric.isSome = true →
      loader_opt p = some "Fabric".data)
  ∧ (p.versions.quilt = none → p.versions.fabric = none → p.versions.forge.isSome = true →
      loader_opt p = some "Forge".data)
  ∧ (p.versions.quilt = none → p.versions.fabric = none → p.versions.forge = none →
      p.versions.liteloader.isSome = true → loader_opt p = some "LiteLoader".data) := by
  rcases p with ⟨nm, ver, ⟨mc, q, fb, fo, ll⟩⟩
  rcases q with _ | qv <;> rcases fb with _ | fv <;> rcases fo with _ | ov <;> rcases ll with _ | lv <;>
    simp_all [loader_opt, countLoaders]

theorem c10_witness : loader_opt packQF ≠ none ∧ loader_opt packQF = some "Quilt".data :=
  ⟨(c10_loader_priority packQF (by decide)).1,
   (c10_loader_priority packQF (by decide)).2.1 rfl⟩

end Mrpack
